import Mathlib

/-!
Shallow embedding of the subscribe-easy library (src/index.ts): the static
class Subscribe (registration adapter: subscribe, subscribeEvent,
subscribeDOMEvent, setTimeout, setInterval, unsubAll, createCleanup) and the
stateful class Subs (subscription collector: the same registration methods
plus push, unsubAll, createCleanup over an internal list of unsubscribe
functions).

Modelling choices:
- Observable side effects of the program are recorded in a world state St:
  a trace of successful unsubscribe invocations, a console.error log, the
  collector's internal list (JS arrays are by-reference; a single collector's
  list suffices for the claims), DOM and emitter listener traces, scheduled
  timeout/interval calls, cancelled timer handles, and a fresh counter that
  models allocation of new handles and closure identities.
- Unsubscribe functions (the values stored in lists and invoked by unsubAll)
  are a small deep embedding Act, covering exactly the closures the library
  itself creates (emitter/DOM removal, clearTimeout/clearInterval, the no-op)
  plus test actions: a pure invocation marker, a raising action, and an
  action that pushes onto the collector list (re-entrancy). Running an Act
  yields the new state and optionally a raised error (a Nat error value).
- JS forEach fixes the iteration length when it starts and reads each index
  from the current array; Subs.unsubAll is modelled that way (forEachFlush),
  and the agreement with the pure fold used for Subscribe.unsubAll is proved,
  not assumed.
-/

/-- The options argument of addEventListener: absent, a boolean, or an
options object (identified by a numeric id, since only its identity matters
for removal). -/
abbrev Opts := Option (Bool ⊕ Nat)

/-- A DOM addEventListener / removeEventListener call, as recorded on the
DOM trace. Objects, event names and listeners are identified by numeric ids;
reference identity is what matters for removal. -/
inductive DomOp where
  | add (obj ev listener : Nat) (opts : Opts)
  | remove (obj ev listener : Nat) (opts : Opts)
deriving DecidableEq, Repr

/-- An EventEmitter addListener / removeListener call, as recorded on the
emitter trace. -/
inductive EmOp where
  | add (emitter ev listener : Nat)
  | remove (emitter ev listener : Nat)
deriving DecidableEq, Repr

/-- A JavaScript value passed as an extra argument to setTimeout or
setInterval: a number, or an array of values. The distinction between an
array of arguments and the array passed as one single argument is the point
of claim C6. -/
inductive JsVal where
  | num : Nat → JsVal
  | arr : List JsVal → JsVal

/-- One scheduled timer: the handle returned by setTimeout/setInterval, the
handler (by id), the effective delay, and the list of extra arguments that
the platform will pass to the handler when the timer fires (one list element
per argument). -/
structure TimerCall where
  handle : Nat
  handler : Nat
  delay : Nat
  extraArgs : List JsVal

/-- An unsubscribe function (the TS type Unsubscribe = () => void), deeply
embedded: the closures the library creates plus test actions. -/
inductive Act where
  /-- The no-op closure returned by Subscribe.subscribe on error. -/
  | noop : Act
  /-- Test action: a successful invocation that records its id on the trace. -/
  | invoke (id : Nat) : Act
  /-- Test action: raises the error e when invoked. -/
  | raiseE (e : Nat) : Act
  /-- Test action: pushes another action onto the collector list (re-entrant
  mutation during a flush). -/
  | pushA (a : Act) : Act
  /-- The closure returned by Subscribe.subscribeEvent: removeListener. -/
  | emRemove (emitter ev listener : Nat) : Act
  /-- The closure returned by Subscribe.subscribeDOMEvent:
  removeEventListener with the captured options. -/
  | domRemove (obj ev listener : Nat) (opts : Opts) : Act
  /-- The closure returned by setTimeout: clearTimeout on the handle. -/
  | clearT (handle : Nat) : Act
  /-- The closure returned by setInterval: clearInterval on the handle. -/
  | clearI (handle : Nat) : Act
deriving DecidableEq, Repr

/-- The world state: all observable effects of the program. -/
structure St where
  /-- Successful invocations of Act.invoke test actions, in order. -/
  trace : List Nat
  /-- Errors written by console.error, in order. -/
  log : List Nat
  /-- The collector's internal list (Subs.list). -/
  list : List Act
  /-- DOM add/removeEventListener calls, in order. -/
  dom : List DomOp
  /-- Emitter add/removeListener calls, in order. -/
  em : List EmOp
  /-- Timeouts scheduled so far. -/
  timeouts : List TimerCall
  /-- Intervals scheduled so far. -/
  intervals : List TimerCall
  /-- Handles passed to clearTimeout. -/
  cancelledT : List Nat
  /-- Handles passed to clearInterval. -/
  cancelledI : List Nat
  /-- Allocator for timer handles and closure identities. -/
  fresh : Nat

/-- The empty initial state. -/
def st0 : St := ⟨[], [], [], [], [], [], [], [], [], 0⟩

/-- Run one unsubscribe function: the new state and the raised error, if
any (state changes made before a raise persist, as in JS). -/
def runAct : Act → St → St × Option Nat
  | Act.noop, s => (s, none)
  | Act.invoke id, s => ({ s with trace := s.trace ++ [id] }, none)
  | Act.raiseE e, s => (s, some e)
  | Act.pushA a, s => ({ s with list := s.list ++ [a] }, none)
  | Act.emRemove m v l, s => ({ s with em := s.em ++ [EmOp.remove m v l] }, none)
  | Act.domRemove d v l o, s => ({ s with dom := s.dom ++ [DomOp.remove d v l o] }, none)
  | Act.clearT h, s => ({ s with cancelledT := s.cancelledT ++ [h] }, none)
  | Act.clearI h, s => ({ s with cancelledI := s.cancelledI ++ [h] }, none)

/-- One guarded invocation, as in the body of Subscribe.unsubAll:
try { unsub() } catch (e) { console.error(e) }. -/
def runGuarded (a : Act) (s : St) : St :=
  match runAct a s with
  | (s', none) => s'
  | (s', some e) => { s' with log := s'.log ++ [e] }

/-- The argument type of Subscribe.unsubAll and Subscribe.createCleanup:
a single unsubscribe function or an array of them (Unsubscribe |
Unsubscribe[], discriminated by Array.isArray). -/
inductive UnsubArg where
  | single (a : Act)
  | many (acts : List Act)

/-- Guarded invocation of each element of a list in order (the array branch
of Subscribe.unsubAll, for an array that is not mutated underfoot). -/
def invokeMany (acts : List Act) (s : St) : St :=
  acts.foldl (fun t a => runGuarded a t) s

/-- Subscribe.unsubAll (src/index.ts lines 122-138): if the argument is an
array, invoke each element under try/catch; else invoke the single function
under try/catch. The second component is the error the call itself raises:
always none, since every invocation is wrapped. -/
def Subscribe.unsubAll : UnsubArg → St → St × Option Nat
  | UnsubArg.many acts, s => (invokeMany acts s, none)
  | UnsubArg.single a, s => (runGuarded a s, none)

/-- A caller-supplied registration function (the argument of
Subscribe.subscribe): an arbitrary state transformer that either returns an
unsubscribe function or raises an error. -/
abbrev SubFn := St → St × Except Nat Act

/-- Subscribe.subscribe (src/index.ts lines 19-28): call the supplied
function immediately; on success return its unsubscribe function; if it
raises, console.error the error and return a no-op unsubscribe. -/
def Subscribe.subscribe (fn : SubFn) (s : St) : Act × St :=
  match fn s with
  | (s', Except.ok a) => (a, s')
  | (s', Except.error e) => (Act.noop, { s' with log := s'.log ++ [e] })

/-- Subscribe.subscribeEvent (src/index.ts lines 38-47): addListener, and
return a closure that calls removeListener on the same triple. -/
def Subscribe.subscribeEvent (emitter ev listener : Nat) (s : St) : Act × St :=
  (Act.emRemove emitter ev listener,
   { s with em := s.em ++ [EmOp.add emitter ev listener] })

/-- Subscribe.subscribeDOMEvent (src/index.ts lines 68-78): addEventListener
with the given options, and return a closure that calls removeEventListener
with the same (obj, ev, listener, options). -/
def Subscribe.subscribeDOMEvent (obj ev listener : Nat) (options : Opts) (s : St) :
    Act × St :=
  (Act.domRemove obj ev listener options,
   { s with dom := s.dom ++ [DomOp.add obj ev listener options] })

/-- Subscribe.setTimeout (src/index.ts lines 89-96): the source calls the
platform as setTimeout(handler, delay, args) - passing the rest-parameter
array args as ONE extra argument - so the scheduled call's extra-argument
list is the one-element list holding the array. An omitted delay is treated
as 0 by the platform. Returns the clearTimeout closure on the fresh handle. -/
def Subscribe.setTimeout (handler : Nat) (delay : Option Nat) (args : List JsVal)
    (s : St) : Act × St :=
  (Act.clearT s.fresh,
   { s with fresh := s.fresh + 1,
            timeouts := s.timeouts ++ [⟨s.fresh, handler, delay.getD 0, [JsVal.arr args]⟩] })

/-- Subscribe.setInterval (src/index.ts lines 107-114): same shape as
Subscribe.setTimeout, scheduling a repeating timer; the source likewise
passes the args array as one extra argument. -/
def Subscribe.setInterval (handler : Nat) (delay : Option Nat) (args : List JsVal)
    (s : St) : Act × St :=
  (Act.clearI s.fresh,
   { s with fresh := s.fresh + 1,
            intervals := s.intervals ++ [⟨s.fresh, handler, delay.getD 0, [JsVal.arr args]⟩] })

/-- A cleanup closure returned by Subscribe.createCleanup, capturing its
argument. -/
structure CleanupFn where
  captured : UnsubArg

/-- Subscribe.createCleanup (src/index.ts lines 146-148): return a closure
that calls Subscribe.unsubAll on the captured argument. -/
def Subscribe.createCleanup (u : UnsubArg) : CleanupFn := ⟨u⟩

/-- Invoking a cleanup closure from Subscribe.createCleanup. -/
def CleanupFn.run (c : CleanupFn) (s : St) : St × Option Nat :=
  Subscribe.unsubAll c.captured s

/-- Subs.push (src/index.ts lines 283-285): this.list.push(unsub). -/
def Subs.push (a : Act) (s : St) : St := { s with list := s.list ++ [a] }

/-- Subs.subscribe (src/index.ts lines 190-194): const unsub =
Subscribe.subscribe(fn); this.push(unsub); return unsub. -/
def Subs.subscribe (fn : SubFn) (s : St) : Act × St :=
  let p := Subscribe.subscribe fn s
  (p.1, Subs.push p.1 p.2)

/-- Subs.subscribeEvent (src/index.ts lines 206-214). -/
def Subs.subscribeEvent (emitter ev listener : Nat) (s : St) : Act × St :=
  let p := Subscribe.subscribeEvent emitter ev listener s
  (p.1, Subs.push p.1 p.2)

/-- Subs.subscribeDOMEvent (src/index.ts lines 226-230): note the method
takes no options parameter; it calls Subscribe.subscribeDOMEvent(domObj,
eventName, listener) with the options argument omitted (undefined). -/
def Subs.subscribeDOMEvent (obj ev listener : Nat) (s : St) : Act × St :=
  let p := Subscribe.subscribeDOMEvent obj ev listener none s
  (p.1, Subs.push p.1 p.2)

/-- Subs.setTimeout (src/index.ts lines 243-252): schedules exactly as the
free function (again passing the args array as one extra argument), pushes
the clearTimeout closure, and returns it. -/
def Subs.setTimeout (handler : Nat) (delay : Option Nat) (args : List JsVal)
    (s : St) : Act × St :=
  let p := Subscribe.setTimeout handler delay args s
  (p.1, Subs.push p.1 p.2)

/-- Subs.setInterval (src/index.ts lines 265-274). -/
def Subs.setInterval (handler : Nat) (delay : Option Nat) (args : List JsVal)
    (s : St) : Act × St :=
  let p := Subscribe.setInterval handler delay args s
  (p.1, Subs.push p.1 p.2)

/-- The forEach loop of Subscribe.unsubAll as executed on the live (aliased,
mutable) collector list: JS forEach fixes the element count k when the loop
starts and reads index i from the current array at each step. Reading past
the end (impossible here, since actions only append) would yield undefined;
Act.noop stands in as the default. -/
def forEachFlush : Nat → Nat → St → St
  | 0, _, s => s
  | k + 1, i, s => forEachFlush k (i + 1) (runGuarded (s.list.getD i Act.noop) s)

/-- Subs.unsubAll (src/index.ts lines 290-294): Subscribe.unsubAll(this.list)
over the live list, then this.list.splice(0, this.list.length), which removes
every element present at splice time, emptying the array in place. -/
def Subs.unsubAll (s : St) : St :=
  let s1 := forEachFlush s.list.length 0 s
  { s1 with list := [] }

/-- A cleanup closure returned by Subs.createCleanup; each call allocates a
distinct closure, identified by a fresh id. -/
structure SubsCleanup where
  id : Nat
deriving DecidableEq, Repr

/-- Subs.createCleanup (src/index.ts lines 301-305): return a fresh closure
over this collector. -/
def Subs.createCleanup (s : St) : SubsCleanup × St :=
  (⟨s.fresh⟩, { s with fresh := s.fresh + 1 })

/-- Invoking a cleanup closure from Subs.createCleanup: it calls
this.unsubAll() on the collector's current state, whatever it is now. -/
def SubsCleanup.run (_ : SubsCleanup) (s : St) : St := Subs.unsubAll s

/-- A test unsubscribe function that either succeeds (recording an id) or
raises (an error id) - the shape quantified over in the batch claims. -/
inductive SimpleAct where
  | inv (id : Nat)
  | err (e : Nat)
deriving DecidableEq, Repr

/-- Interpret a SimpleAct as an Act. -/
def SimpleAct.toAct : SimpleAct → Act
  | SimpleAct.inv id => Act.invoke id
  | SimpleAct.err _e => Act.raiseE _e

/-- The ids of the non-raising actions, in sequence order. -/
def invokedIds : List SimpleAct → List Nat
  | [] => []
  | SimpleAct.inv id :: rest => id :: invokedIds rest
  | SimpleAct.err _ :: rest => invokedIds rest

/-- The error values of the raising actions, in sequence order. -/
def loggedIds : List SimpleAct → List Nat
  | [] => []
  | SimpleAct.inv _ :: rest => loggedIds rest
  | SimpleAct.err e :: rest => e :: loggedIds rest

/-! Bridging lemmas: invoking an unsubscribe function only ever appends to
the collector list, so the forEach loop of a flush (length fixed at entry,
indices read live) agrees with the pure fold over the list snapshot taken at
entry. -/

theorem runGuarded_list_extend (a : Act) (s : St) :
    ∃ ext, (runGuarded a s).list = s.list ++ ext := by
  cases a <;> simp [runGuarded, runAct]

theorem forEachFlush_eq (k : Nat) : ∀ (i : Nat) (s : St),
    i + k ≤ s.list.length →
    forEachFlush k i s = invokeMany ((s.list.drop i).take k) s := by
  induction k with
  | zero => intro i s _h; simp [forEachFlush, invokeMany]
  | succ k ih =>
    intro i s h
    have hi : i < s.list.length := by omega
    have hget : s.list.getD i Act.noop = s.list[i] :=
      List.getD_eq_getElem s.list Act.noop hi
    have hdrop : s.list.drop i = s.list[i] :: s.list.drop (i + 1) :=
      List.drop_eq_getElem_cons hi
    obtain ⟨ext, hext⟩ := runGuarded_list_extend (s.list.getD i Act.noop) s
    have hlen : i + 1 + k ≤ (runGuarded (s.list.getD i Act.noop) s).list.length := by
      rw [hext]; simp; omega
    have hlist : ((runGuarded (s.list.getD i Act.noop) s).list.drop (i + 1)).take k =
        (s.list.drop (i + 1)).take k := by
      rw [hext, List.drop_append_of_le_length (by omega),
        List.take_append_of_le_length (by simp; omega)]
    calc forEachFlush (k + 1) i s
        = forEachFlush k (i + 1) (runGuarded (s.list.getD i Act.noop) s) := rfl
      _ = invokeMany (((runGuarded (s.list.getD i Act.noop) s).list.drop (i + 1)).take k)
            (runGuarded (s.list.getD i Act.noop) s) := ih (i + 1) _ hlen
      _ = invokeMany ((s.list.drop (i + 1)).take k)
            (runGuarded (s.list.getD i Act.noop) s) := by rw [hlist]
      _ = invokeMany ((s.list.drop i).take (k + 1)) s := by
            simp only [invokeMany, hdrop, List.take_succ_cons, List.foldl_cons, hget]

/-- A flush of the whole live list equals the pure fold over the snapshot of
the list taken when the flush begins. -/
theorem forEachFlush_full (s : St) :
    forEachFlush s.list.length 0 s = invokeMany s.list s := by
  have h := forEachFlush_eq s.list.length 0 s (by omega)
  simpa using h

/-- Guarded batch invocation of simple actions: the trace is extended by the
ids of the non-raising actions in order, the log by the errors of the raising
actions in order, and nothing else changes. -/
theorem invokeMany_simple (sims : List SimpleAct) : ∀ s : St,
    invokeMany (sims.map SimpleAct.toAct) s =
      { s with trace := s.trace ++ invokedIds sims, log := s.log ++ loggedIds sims } := by
  induction sims with
  | nil => intro s; simp [invokeMany, invokedIds, loggedIds]
  | cons a rest ih =>
    intro s
    cases a with
    | inv id =>
      have : invokeMany ((SimpleAct.inv id :: rest).map SimpleAct.toAct) s =
          invokeMany (rest.map SimpleAct.toAct) { s with trace := s.trace ++ [id] } := by
        simp [invokeMany, SimpleAct.toAct, runGuarded, runAct]
      rw [this, ih]
      simp [invokedIds, loggedIds]
    | err e =>
      have : invokeMany ((SimpleAct.err e :: rest).map SimpleAct.toAct) s =
          invokeMany (rest.map SimpleAct.toAct) { s with log := s.log ++ [e] } := by
        simp [invokeMany, SimpleAct.toAct, runGuarded, runAct]
      rw [this, ih]
      simp [invokedIds, loggedIds]

theorem invokedIds_append (l1 l2 : List SimpleAct) :
    invokedIds (l1 ++ l2) = invokedIds l1 ++ invokedIds l2 := by
  induction l1 with
  | nil => simp [invokedIds]
  | cons a rest ih => cases a <;> simp [invokedIds, ih]

/-- C1: for every sequence of actions, each of which either succeeds
(recording its id) or raises, Subscribe.unsubAll invokes every non-raising
action exactly once in sequence order (the trace is extended by exactly
their ids, in order), logs the errors of the raising actions, and itself
returns normally (raised-error component none); the same isolation applies
to a single action passed without an array. -/
theorem C1_invokeAll_isolation (sims : List SimpleAct) (s : St) :
    Subscribe.unsubAll (UnsubArg.many (sims.map SimpleAct.toAct)) s =
      ({ s with trace := s.trace ++ invokedIds sims, log := s.log ++ loggedIds sims },
        (none : Option Nat)) ∧
    ∀ sim : SimpleAct,
      Subscribe.unsubAll (UnsubArg.single sim.toAct) s =
        ({ s with trace := s.trace ++ invokedIds [sim], log := s.log ++ loggedIds [sim] },
          (none : Option Nat)) := by
  constructor
  · simp [Subscribe.unsubAll, invokeMany_simple]
  · intro sim
    cases sim <;>
      simp [Subscribe.unsubAll, runGuarded, runAct, SimpleAct.toAct, invokedIds, loggedIds]

/-- C2: if the caller-supplied registration function raises, the error is
logged and swallowed and Subscribe.subscribe returns the no-op action, whose
invocation changes nothing and raises nothing in any state; if the supplied
function returns normally, Subscribe.subscribe returns exactly the action it
returned, in exactly the state it produced. -/
theorem C2_registerGuarded (fn : SubFn) (s : St) :
    (∀ s' e, fn s = (s', Except.error e) →
      Subscribe.subscribe fn s = (Act.noop, { s' with log := s'.log ++ [e] }) ∧
      ∀ t, runAct Act.noop t = (t, none)) ∧
    (∀ s' a, fn s = (s', Except.ok a) → Subscribe.subscribe fn s = (a, s')) := by
  constructor
  · intro s' e h
    exact ⟨by simp [Subscribe.subscribe, h], fun t => rfl⟩
  · intro s' a h
    simp [Subscribe.subscribe, h]

theorem C2_registerGuarded_witness :
    (Subscribe.subscribe (fun s => (s, Except.error 5)) st0 =
      (Act.noop, { st0 with log := st0.log ++ [5] })) ∧
    runAct Act.noop st0 = (st0, none) ∧
    Subscribe.subscribe (fun s => (s, Except.ok (Act.invoke 3))) st0 =
      (Act.invoke 3, st0) :=
  ⟨((C2_registerGuarded (fun s => (s, Except.error 5)) st0).1 st0 5 rfl).1,
   ((C2_registerGuarded (fun s => (s, Except.error 5)) st0).1 st0 5 rfl).2 st0,
   (C2_registerGuarded (fun s => (s, Except.ok (Act.invoke 3))) st0).2 st0 (Act.invoke 3) rfl⟩

/-- C3: with k actions in the collector's list before the flush, Subs.unsubAll
invokes every action currently in the list with exactly the failure-isolated
semantics of Subscribe.unsubAll applied to that list, then leaves the internal
list empty; the collector stays usable - a push after the flush lands in the
emptied list. -/
theorem C3_flushAll (s : St) (k : Nat) (h : s.list.length = k) :
    s.list.length = k ∧
    Subs.unsubAll s =
      { (Subscribe.unsubAll (UnsubArg.many s.list) s).1 with list := [] } ∧
    ∀ a, Subs.push a (Subs.unsubAll s) = { Subs.unsubAll s with list := [a] } := by
  refine ⟨h, ?_, ?_⟩
  · simp [Subs.unsubAll, Subscribe.unsubAll, forEachFlush_full]
  · intro a
    simp [Subs.push, Subs.unsubAll]

theorem C3_flushAll_witness :
    Subs.unsubAll { st0 with list := [Act.invoke 1, Act.raiseE 2] } =
      { (Subscribe.unsubAll
          (UnsubArg.many ({ st0 with list := [Act.invoke 1, Act.raiseE 2] }).list)
          { st0 with list := [Act.invoke 1, Act.raiseE 2] }).1 with list := [] } :=
  ((C3_flushAll { st0 with list := [Act.invoke 1, Act.raiseE 2] } 2 rfl).2).1

/-- C4: if the collector's list is pre ++ [S1] ++ mid ++ [S2] ++ post (S1
appended before S2), the flush produces exactly the trace of pre, then S1,
then mid, then S2, then post - so S1's action is invoked strictly before
S2's, and in general the accumulated actions run in exact append order,
oldest first. -/
theorem C4_flush_order (pre mid post : List SimpleAct) (id1 id2 : Nat) (s : St)
    (h : s.list = ((pre ++ SimpleAct.inv id1 :: mid) ++ SimpleAct.inv id2 :: post).map
      SimpleAct.toAct) :
    (Subs.unsubAll s).trace =
      s.trace ++ (invokedIds pre ++ id1 :: (invokedIds mid ++ id2 :: invokedIds post)) := by
  have h1 : Subs.unsubAll s = { invokeMany s.list s with list := [] } := by
    simp [Subs.unsubAll, forEachFlush_full]
  rw [h1, h, invokeMany_simple]
  simp [invokedIds_append, invokedIds]

theorem C4_flush_order_witness :
    (Subs.unsubAll { st0 with list := [Act.invoke 1, Act.invoke 2] }).trace =
      ({ st0 with list := [Act.invoke 1, Act.invoke 2] }).trace ++
        (invokedIds [] ++ 1 :: (invokedIds [] ++ 2 :: invokedIds [])) :=
  C4_flush_order [] [] [] 1 2 { st0 with list := [Act.invoke 1, Act.invoke 2] } rfl

/-- C5 counterexample: the claim that Subs.subscribeDOMEvent takes and
forwards the same options value as Subscribe.subscribeDOMEvent fails: the
method has no options parameter, so for the capture option some true the
free function's attachment differs from the one the collector method makes
(which always attaches with options undefined). -/
theorem C5_subscribeDOMEvent_counterexample :
    ((Subs.subscribeDOMEvent 0 0 0 st0).2).dom ≠
      ((Subscribe.subscribeDOMEvent 0 0 0 (some (Sum.inl true)) st0).2).dom := by
  simp [Subs.subscribeDOMEvent, Subscribe.subscribeDOMEvent, Subs.push, st0]

/-- C5 amended: Subs.subscribeDOMEvent omits the optional options parameter;
it performs exactly the registration of Subscribe.subscribeDOMEvent with
options undefined (none) plus the push of the returned action, and the
returned action detaches with that same omitted options value. -/
theorem C5_subscribeDOMEvent_amended (obj ev listener : Nat) (s : St) :
    Subs.subscribeDOMEvent obj ev listener s =
      ((Subscribe.subscribeDOMEvent obj ev listener none s).1,
        Subs.push (Subscribe.subscribeDOMEvent obj ev listener none s).1
          (Subscribe.subscribeDOMEvent obj ev listener none s).2) ∧
    ∀ t, runAct (Subs.subscribeDOMEvent obj ev listener s).1 t =
      ({ t with dom := t.dom ++ [DomOp.remove obj ev listener none] }, none) :=
  ⟨rfl, fun _t => rfl⟩

/-- C6, code bug: Subscribe.setTimeout and Subscribe.setInterval call the
platform as setTimeout(handler, delay, args), passing the rest-parameter
array as ONE extra argument, so the scheduled call's extra-argument list is
the singleton holding the array - not, as the claim (and the source's own
doc comment and variadic typing) says, one argument per element of args. -/
theorem C6_setTimeout_args_bug :
    ((Subscribe.setTimeout 7 (some 0) [JsVal.num 1, JsVal.num 2] st0).2).timeouts.map
        TimerCall.extraArgs = [[JsVal.arr [JsVal.num 1, JsVal.num 2]]] ∧
    ((Subscribe.setInterval 7 (some 0) [JsVal.num 1, JsVal.num 2] st0).2).intervals.map
        TimerCall.extraArgs = [[JsVal.arr [JsVal.num 1, JsVal.num 2]]] ∧
    ([JsVal.arr [JsVal.num 1, JsVal.num 2]] : List JsVal) ≠ [JsVal.num 1, JsVal.num 2] := by
  refine ⟨rfl, rfl, ?_⟩
  intro h
  simp at h

/-- C7: every successful collector registration method appends exactly the
action it returns to the end of the internal list, changing nothing else
about the post-registration state, and push appends its argument verbatim;
the returned action is the very one the underlying free registration
produced. -/
theorem C7_collector_append (s : St) :
    (∀ fn : SubFn,
      (Subs.subscribe fn s).2 =
        { (Subscribe.subscribe fn s).2 with
            list := ((Subscribe.subscribe fn s).2).list ++ [(Subs.subscribe fn s).1] } ∧
      (Subs.subscribe fn s).1 = (Subscribe.subscribe fn s).1) ∧
    (∀ emitter ev listener : Nat,
      (Subs.subscribeEvent emitter ev listener s).2 =
        { (Subscribe.subscribeEvent emitter ev listener s).2 with
            list := ((Subscribe.subscribeEvent emitter ev listener s).2).list ++
              [(Subs.subscribeEvent emitter ev listener s).1] } ∧
      (Subs.subscribeEvent emitter ev listener s).1 =
        (Subscribe.subscribeEvent emitter ev listener s).1) ∧
    (∀ obj ev listener : Nat,
      (Subs.subscribeDOMEvent obj ev listener s).2 =
        { (Subscribe.subscribeDOMEvent obj ev listener none s).2 with
            list := ((Subscribe.subscribeDOMEvent obj ev listener none s).2).list ++
              [(Subs.subscribeDOMEvent obj ev listener s).1] } ∧
      (Subs.subscribeDOMEvent obj ev listener s).1 =
        (Subscribe.subscribeDOMEvent obj ev listener none s).1) ∧
    (∀ (handler : Nat) (delay : Option Nat) (args : List JsVal),
      (Subs.setTimeout handler delay args s).2 =
        { (Subscribe.setTimeout handler delay args s).2 with
            list := ((Subscribe.setTimeout handler delay args s).2).list ++
              [(Subs.setTimeout handler delay args s).1] } ∧
      (Subs.setTimeout handler delay args s).1 =
        (Subscribe.setTimeout handler delay args s).1) ∧
    (∀ (handler : Nat) (delay : Option Nat) (args : List JsVal),
      (Subs.setInterval handler delay args s).2 =
        { (Subscribe.setInterval handler delay args s).2 with
            list := ((Subscribe.setInterval handler delay args s).2).list ++
              [(Subs.setInterval handler delay args s).1] } ∧
      (Subs.setInterval handler delay args s).1 =
        (Subscribe.setInterval handler delay args s).1) ∧
    (∀ a, Subs.push a s = { s with list := s.list ++ [a] }) :=
  ⟨fun _fn => ⟨rfl, rfl⟩, fun _ _ _ => ⟨rfl, rfl⟩, fun _ _ _ => ⟨rfl, rfl⟩,
   fun _ _ _ => ⟨rfl, rfl⟩, fun _ _ _ => ⟨rfl, rfl⟩, fun _a => rfl⟩

/-- C8: the cleanup closure from Subscribe.createCleanup, when invoked,
performs exactly Subscribe.unsubAll on the captured actions; invoking it
twice on a batch of simple actions invokes every element twice (the trace
and log each gain the batch's contribution twice) - no deduplication, no
re-invocation guard. -/
theorem C8_createCleanup (u : UnsubArg) (s : St) (sims : List SimpleAct) :
    CleanupFn.run (Subscribe.createCleanup u) s = Subscribe.unsubAll u s ∧
    (CleanupFn.run (Subscribe.createCleanup (UnsubArg.many (sims.map SimpleAct.toAct)))
        ((CleanupFn.run (Subscribe.createCleanup (UnsubArg.many (sims.map SimpleAct.toAct)))
          s).1)).1 =
      { s with trace := s.trace ++ invokedIds sims ++ invokedIds sims,
               log := s.log ++ loggedIds sims ++ loggedIds sims } := by
  refine ⟨rfl, ?_⟩
  simp [CleanupFn.run, Subscribe.createCleanup, Subscribe.unsubAll, invokeMany_simple]

/-- Flushing a collector whose list consists of simple actions: trace and
log are extended as by invokeAll and the list is cleared. -/
theorem Subs_unsubAll_simple (sims : List SimpleAct) (s : St)
    (h : s.list = sims.map SimpleAct.toAct) :
    Subs.unsubAll s =
      { s with trace := s.trace ++ invokedIds sims, log := s.log ++ loggedIds sims,
               list := [] } := by
  have hx : Subs.unsubAll s = { invokeMany s.list s with list := [] } := by
    simp [Subs.unsubAll, forEachFlush_full]
  rw [hx, h, invokeMany_simple]

/-- C9: two successive calls of Subs.createCleanup return distinct closure
values; every such closure, whenever invoked, performs Subs.unsubAll on the
collector's state as it is at invocation time (the live list, not a snapshot
frozen at creation) - in particular an action pushed after the closure was
created is still invoked by it. -/
theorem C9_collectorCleanup (s : St) :
    (Subs.createCleanup s).1 ≠ (Subs.createCleanup (Subs.createCleanup s).2).1 ∧
    (∀ (c : SubsCleanup) (t : St), SubsCleanup.run c t = Subs.unsubAll t) ∧
    ∀ (c : SubsCleanup) (id : Nat) (t : St), t.list = [] →
      (SubsCleanup.run c (Subs.push (SimpleAct.toAct (SimpleAct.inv id)) t)).trace =
        t.trace ++ [id] := by
  refine ⟨?_, fun _c _t => rfl, ?_⟩
  · simp [Subs.createCleanup]
  · intro c id t h
    have h2 : (Subs.push (SimpleAct.toAct (SimpleAct.inv id)) t).list =
        [SimpleAct.inv id].map SimpleAct.toAct := by
      simp [Subs.push, h]
    have h3 := Subs_unsubAll_simple [SimpleAct.inv id] _ h2
    show (Subs.unsubAll (Subs.push (SimpleAct.toAct (SimpleAct.inv id)) t)).trace =
      t.trace ++ [id]
    rw [h3]
    simp [Subs.push, invokedIds]

theorem C9_collectorCleanup_witness :
    (SubsCleanup.run ⟨0⟩ (Subs.push (SimpleAct.toAct (SimpleAct.inv 3)) st0)).trace =
      st0.trace ++ [3] :=
  (C9_collectorCleanup st0).2.2 ⟨0⟩ 3 st0 rfl

/-- C10: if an action that runs during a flush pushes a new action onto the
same collector, the ongoing flush does not invoke it (the forEach range is
fixed at entry) yet the final clear removes it: the flush of the list
[invoke id1, push (invoke idb), invoke id2] produces exactly the trace
contribution [id1, id2] - idb is never invoked, silently discarded - and
after any flush whatsoever the internal list is empty. -/
theorem C10_push_during_flush (s : St) (id1 idb id2 : Nat)
    (h : s.list = [Act.invoke id1, Act.pushA (Act.invoke idb), Act.invoke id2]) :
    Subs.unsubAll s = { s with trace := s.trace ++ [id1, id2], list := [] } ∧
    ∀ t : St, (Subs.unsubAll t).list = [] := by
  constructor
  · have hx : Subs.unsubAll s = { invokeMany s.list s with list := [] } := by
      simp [Subs.unsubAll, forEachFlush_full]
    rw [hx, h]
    obtain ⟨tr, lg, li, dm, emx, tox, ivx, ct, ci, fr⟩ := s
    simp [invokeMany, runGuarded, runAct]
  · intro _t
    rfl

theorem C10_push_during_flush_witness :
    Subs.unsubAll { st0 with list := [Act.invoke 1, Act.pushA (Act.invoke 5), Act.invoke 2] } =
      { { st0 with list := [Act.invoke 1, Act.pushA (Act.invoke 5), Act.invoke 2] } with
          trace := ({ st0 with
            list := [Act.invoke 1, Act.pushA (Act.invoke 5), Act.invoke 2] }).trace ++ [1, 2],
          list := [] } :=
  (C10_push_during_flush
    { st0 with list := [Act.invoke 1, Act.pushA (Act.invoke 5), Act.invoke 2] } 1 5 2 rfl).1
